import Mathlib

/-!
Shallow embedding of `saleor/graphql/discount/types.py`: the GraphQL object
types `SaleChannelListing`, `Sale`, `SaleCountableConnection`,
`VoucherChannelListing`, `Voucher`, `VoucherCountableConnection` and
`OrderDiscount`, together with their field resolvers.

Conventions of the embedding:
* ORM rows become Lean structures; related querysets become lists of row ids.
* `ChannelContext` is the wrapper the channel middleware puts around a node:
  a node plus an optional channel slug.  Python truthiness of the slug
  (`if not root.channel_slug`) distinguishes `none` and `some ""` from a
  non-empty `some s`.
* A dataloader `.load(key)` (optionally followed by `.then(f)`) is embedded
  as the `Promise` free-step datatype below: either an already-resolved
  value, or a pending load of `key` with continuation `f`.  `Promise.run`
  discharges a pending load against a concrete loader function (the
  database contents); `Promise.loadKey` observes which key, if any, a
  resolver asked the loader for.
* Decimal amounts are embedded as `Rat`.
-/

/-- A sales channel row (`channel` app), as far as this module reads it. -/
structure Channel where
  id : Nat
  slug : String
deriving DecidableEq, Repr

/-- A money value: Django money field pair of amount and currency. -/
structure Money where
  amount : Rat
  currency : String
deriving DecidableEq, Repr

/-- A country as stored on a voucher: a code plus a human-readable name. -/
structure Country where
  code : String
  name : String
deriving DecidableEq, Repr

/-- The GraphQL `CountryDisplay` output object from `..core.types`. -/
structure CountryDisplay where
  code : String
  country : String
deriving DecidableEq, Repr

/-- Row of the `SaleChannelListing` model: per-channel override for a sale. -/
structure SaleChannelListing where
  id : Nat
  channel_id : Nat
  discount_value : Rat
  currency : String
deriving DecidableEq, Repr

/-- Row of the `VoucherChannelListing` model: per-channel override for a
voucher; `min_spent` is the optional minimum order value. -/
structure VoucherChannelListing where
  id : Nat
  channel_id : Nat
  discount_value : Rat
  currency : String
  min_spent : Option Money
deriving DecidableEq, Repr

/-- Row of the `Sale` model, with its related querysets as id lists. -/
structure SaleNode where
  id : Nat
  name : String
  categories : List Nat
  collections : List Nat
  products : List Nat
  variants : List Nat
deriving DecidableEq, Repr

/-- Row of the `Voucher` model, with its related querysets as id lists and
its country list. -/
structure VoucherNode where
  id : Nat
  name : String
  code : String
  categories : List Nat
  collections : List Nat
  products : List Nat
  variants : List Nat
  countries : List Country
deriving DecidableEq, Repr

/-- Row of the `OrderDiscount` model, as far as this module reads it. -/
structure OrderDiscountNode where
  id : Nat
  reason : Option String
deriving DecidableEq, Repr

/-- `ChannelContext` from `..channel`: a node together with the optional
channel slug of the request. -/
structure ChannelContext (α : Type) where
  node : α
  channel_slug : Option String
deriving DecidableEq, Repr

/-- The permissions this module names: `DiscountPermissions.MANAGE_DISCOUNTS`
and `OrderPermissions.MANAGE_ORDERS` from `...core.permissions`. -/
inductive Permission where
  | manage_discounts
  | manage_orders
deriving DecidableEq, Repr

/-- The part of the resolver `info` argument this module consults: the
permissions held by the requesting user (`info.context`). -/
structure Info where
  permissions : List Permission
deriving DecidableEq, Repr

/-- The outcome the permission-decorator framework produces on failure. -/
inductive PermError where
  | permissionDenied
deriving DecidableEq, Repr

/-- Modelled from the spec: `permission_required` from `..decorators` is not
part of this file; the spec says missing permission is handled by
"delegating to the permission-decorator framework's exception mechanism".
The decorator runs the wrapped resolver body only when the caller holds the
permission, and otherwise raises, embedded here as `Except.error`. -/
def permission_required (perm : Permission) (resolver : ρ → Info → α)
    (root : ρ) (info : Info) : Except PermError α :=
  if perm ∈ info.permissions then Except.ok (resolver root info)
  else Except.error PermError.permissionDenied

/-- A dataloader promise: either an already-resolved value (`value`), or a
pending `load key` whose result of type `β` is fed to a `.then` continuation
(`loadThen`).  A bare `.load(key)` is `loadThen key` with the identity
continuation. -/
inductive Promise (κ β α : Type) where
  | value : α → Promise κ β α
  | loadThen : κ → (β → α) → Promise κ β α

/-- Which key, if any, a promise asks its loader for (`none` when the
resolver returned without invoking the loader). -/
def Promise.loadKey : Promise κ β α → Option κ
  | .value _ => none
  | .loadThen k _ => some k

/-- Discharge a promise against a concrete loader function. -/
def Promise.run (p : Promise κ β α) (loader : κ → β) : α :=
  match p with
  | .value a => a
  | .loadThen k f => f (loader k)

/-- Pagination keyword arguments forwarded to the connection framework. -/
abbrev Kwargs := List (String × String)

/-- `ChannelQsContext` from `..channel`: a queryset tagged with the request
channel slug. -/
structure ChannelQsContext where
  qs : List Nat
  channel_slug : Option String
deriving DecidableEq, Repr

/-- The value a call to the connection-pagination framework yields, as this
module determines it: the queryset, the pagination kwargs and the connection
type name. -/
structure ConnectionSliceCall (σ : Type) where
  qs : σ
  kwargs : Kwargs
  connection : String

/-- Modelled from the spec: `create_connection_slice` belongs to the
excluded "GraphQL execution/connection-pagination framework"; it paginates
the given queryset by the pagination kwargs into the given connection type
("Connection: paginated GraphQL list wrapper following cursor-based
pagination convention").  Its result is determined by the queryset, the
kwargs and the connection type; `info` carries the request context through. -/
def create_connection_slice (qs : σ) (_info : Info) (kwargs : Kwargs)
    (connection : String) : ConnectionSliceCall σ :=
  { qs := qs, kwargs := kwargs, connection := connection }

/-- `SaleChannelListing.resolve_channel`: load the channel by
`root.channel_id` through `ChannelByIdLoader`. -/
def SaleChannelListing.resolve_channel (root : SaleChannelListing)
    (_info : Info) : Promise Nat Channel Channel :=
  Promise.loadThen root.channel_id (fun c => c)

/-- `Sale.resolve_categories`: slice `root.node.categories.all()` into
`CategoryCountableConnection`; no permission decorator. -/
def Sale.resolve_categories (root : ChannelContext SaleNode) (info : Info)
    (kwargs : Kwargs) : ConnectionSliceCall (List Nat) :=
  create_connection_slice root.node.categories info kwargs
    "CategoryCountableConnection"

/-- `Sale.resolve_channel_listings`, decorated with
`permission_required(DiscountPermissions.MANAGE_DISCOUNTS)`: load all
listings of the sale through `SaleChannelListingBySaleIdLoader`. -/
def Sale.resolve_channel_listings (root : ChannelContext SaleNode)
    (info : Info) :
    Except PermError
      (Promise Nat (List SaleChannelListing) (List SaleChannelListing)) :=
  permission_required Permission.manage_discounts
    (fun root _info => Promise.loadThen root.node.id (fun ls => ls))
    root info

/-- `Sale.resolve_collections`, decorated with
`permission_required(DiscountPermissions.MANAGE_DISCOUNTS)`. -/
def Sale.resolve_collections (root : ChannelContext SaleNode) (info : Info)
    (kwargs : Kwargs) : Except PermError (ConnectionSliceCall ChannelQsContext) :=
  permission_required Permission.manage_discounts
    (fun root info =>
      create_connection_slice
        { qs := root.node.collections, channel_slug := root.channel_slug }
        info kwargs "CollectionCountableConnection")
    root info

/-- `Sale.resolve_products`, decorated with
`permission_required(DiscountPermissions.MANAGE_DISCOUNTS)`. -/
def Sale.resolve_products (root : ChannelContext SaleNode) (info : Info)
    (kwargs : Kwargs) : Except PermError (ConnectionSliceCall ChannelQsContext) :=
  permission_required Permission.manage_discounts
    (fun root info =>
      create_connection_slice
        { qs := root.node.products, channel_slug := root.channel_slug }
        info kwargs "ProductCountableConnection")
    root info

/-- `Sale.resolve_variants`, decorated with
`permission_required(DiscountPermissions.MANAGE_DISCOUNTS)`. -/
def Sale.resolve_variants (root : ChannelContext SaleNode) (info : Info)
    (kwargs : Kwargs) : Except PermError (ConnectionSliceCall ChannelQsContext) :=
  permission_required Permission.manage_discounts
    (fun root info =>
      create_connection_slice
        { qs := root.node.variants, channel_slug := root.channel_slug }
        info kwargs "ProductVariantCountableConnection")
    root info

/-- `Sale.resolve_discount_value`: `None` when `root.channel_slug` is falsy,
otherwise load the listing for `(root.node.id, root.channel_slug)` through
`SaleChannelListingBySaleIdAndChanneSlugLoader` and project
`discount_value` when a listing came back. -/
def Sale.resolve_discount_value (root : ChannelContext SaleNode) :
    Promise (Nat × String) (Option SaleChannelListing) (Option Rat) :=
  match root.channel_slug with
  | none => Promise.value none
  | some s =>
    if s = "" then Promise.value none
    else
      Promise.loadThen (root.node.id, s)
        (fun channel_listing =>
          match channel_listing with
          | some l => some l.discount_value
          | none => none)

/-- `Sale.resolve_currency`: same shape as `resolve_discount_value`, but
projecting `currency`. -/
def Sale.resolve_currency (root : ChannelContext SaleNode) :
    Promise (Nat × String) (Option SaleChannelListing) (Option String) :=
  match root.channel_slug with
  | none => Promise.value none
  | some s =>
    if s = "" then Promise.value none
    else
      Promise.loadThen (root.node.id, s)
        (fun channel_listing =>
          match channel_listing with
          | some l => some l.currency
          | none => none)

/-- `VoucherChannelListing.resolve_channel`: load the channel by
`root.channel_id` through `ChannelByIdLoader`. -/
def VoucherChannelListing.resolve_channel (root : VoucherChannelListing)
    (_info : Info) : Promise Nat Channel Channel :=
  Promise.loadThen root.channel_id (fun c => c)

/-- `Voucher.resolve_categories`: slice `root.node.categories.all()` into
`CategoryCountableConnection`; no permission decorator. -/
def Voucher.resolve_categories (root : ChannelContext VoucherNode)
    (info : Info) (kwargs : Kwargs) : ConnectionSliceCall (List Nat) :=
  create_connection_slice root.node.categories info kwargs
    "CategoryCountableConnection"

/-- `Voucher.resolve_collections`, decorated with
`permission_required(DiscountPermissions.MANAGE_DISCOUNTS)`. -/
def Voucher.resolve_collections (root : ChannelContext VoucherNode)
    (info : Info) (kwargs : Kwargs) :
    Except PermError (ConnectionSliceCall ChannelQsContext) :=
  permission_required Permission.manage_discounts
    (fun root info =>
      create_connection_slice
        { qs := root.node.collections, channel_slug := root.channel_slug }
        info kwargs "CollectionCountableConnection")
    root info

/-- `Voucher.resolve_products`, decorated with
`permission_required(DiscountPermissions.MANAGE_DISCOUNTS)`. -/
def Voucher.resolve_products (root : ChannelContext VoucherNode)
    (info : Info) (kwargs : Kwargs) :
    Except PermError (ConnectionSliceCall ChannelQsContext) :=
  permission_required Permission.manage_discounts
    (fun root info =>
      create_connection_slice
        { qs := root.node.products, channel_slug := root.channel_slug }
        info kwargs "ProductCountableConnection")
    root info

/-- `Voucher.resolve_variants`, decorated with
`permission_required(DiscountPermissions.MANAGE_DISCOUNTS)`. -/
def Voucher.resolve_variants (root : ChannelContext VoucherNode)
    (info : Info) (kwargs : Kwargs) :
    Except PermError (ConnectionSliceCall ChannelQsContext) :=
  permission_required Permission.manage_discounts
    (fun root info =>
      create_connection_slice
        { qs := root.node.variants, channel_slug := root.channel_slug }
        info kwargs "ProductVariantCountableConnection")
    root info

/-- `Voucher.resolve_countries`: the list comprehension building a
`CountryDisplay` for each country of the voucher, in order. -/
def Voucher.resolve_countries (root : ChannelContext VoucherNode) :
    List CountryDisplay :=
  root.node.countries.map
    (fun country => { code := country.code, country := country.name })

/-- `Voucher.resolve_discount_value`: `None` when `root.channel_slug` is
falsy, otherwise load the listing for `(root.node.id, root.channel_slug)`
through `VoucherChannelListingByVoucherIdAndChanneSlugLoader` and project
`discount_value` when a listing came back. -/
def Voucher.resolve_discount_value (root : ChannelContext VoucherNode) :
    Promise (Nat × String) (Option VoucherChannelListing) (Option Rat) :=
  match root.channel_slug with
  | none => Promise.value none
  | some s =>
    if s = "" then Promise.value none
    else
      Promise.loadThen (root.node.id, s)
        (fun channel_listing =>
          match channel_listing with
          | some l => some l.discount_value
          | none => none)

/-- `Voucher.resolve_currency`: same shape, projecting `currency`. -/
def Voucher.resolve_currency (root : ChannelContext VoucherNode) :
    Promise (Nat × String) (Option VoucherChannelListing) (Option String) :=
  match root.channel_slug with
  | none => Promise.value none
  | some s =>
    if s = "" then Promise.value none
    else
      Promise.loadThen (root.node.id, s)
        (fun channel_listing =>
          match channel_listing with
          | some l => some l.currency
          | none => none)

/-- `Voucher.resolve_min_spent`: same shape, projecting `min_spent`. -/
def Voucher.resolve_min_spent (root : ChannelContext VoucherNode) :
    Promise (Nat × String) (Option VoucherChannelListing) (Option Money) :=
  match root.channel_slug with
  | none => Promise.value none
  | some s =>
    if s = "" then Promise.value none
    else
      Promise.loadThen (root.node.id, s)
        (fun channel_listing =>
          match channel_listing with
          | some l => l.min_spent
          | none => none)

/-- `Voucher.resolve_channel_listings`, decorated with
`permission_required(DiscountPermissions.MANAGE_DISCOUNTS)`: load all
listings of the voucher through `VoucherChannelListingByVoucherIdLoader`. -/
def Voucher.resolve_channel_listings (root : ChannelContext VoucherNode)
    (info : Info) :
    Except PermError
      (Promise Nat (List VoucherChannelListing) (List VoucherChannelListing)) :=
  permission_required Permission.manage_discounts
    (fun root _info => Promise.loadThen root.node.id (fun ls => ls))
    root info

/-- `OrderDiscount.resolve_reason`, decorated with
`permission_required(OrderPermissions.MANAGE_ORDERS)`: return
`root.reason`. -/
def OrderDiscount.resolve_reason (root : OrderDiscountNode) (info : Info) :
    Except PermError (Option String) :=
  permission_required Permission.manage_orders
    (fun root _info => root.reason)
    root info

/-- A top-level GraphQL type declaration of the module: its class name,
whether it is a `CountableConnection` subclass, and for a connection the
name of its `Meta.node` type. -/
structure TypeDecl where
  name : String
  isConnection : Bool
  connectionNode : Option String
deriving DecidableEq, Repr

/-- The classes `types.py` declares, in source order. -/
def moduleDecls : List TypeDecl :=
  [ { name := "SaleChannelListing", isConnection := false, connectionNode := none },
    { name := "Sale", isConnection := false, connectionNode := none },
    { name := "SaleCountableConnection", isConnection := true,
      connectionNode := some "Sale" },
    { name := "VoucherChannelListing", isConnection := false, connectionNode := none },
    { name := "Voucher", isConnection := false, connectionNode := none },
    { name := "VoucherCountableConnection", isConnection := true,
      connectionNode := some "Voucher" },
    { name := "OrderDiscount", isConnection := false, connectionNode := none } ]

/-- The five object types the spec lists for this module. -/
def objectTypeNames : List String :=
  ["Sale", "Voucher", "SaleChannelListing", "VoucherChannelListing", "OrderDiscount"]

/-- `t` is declared in the module as an object type (not a connection). -/
def declaresObjectType (t : String) : Bool :=
  moduleDecls.any (fun d => d.name == t && !d.isConnection)

/-- Some connection type declared in the module has `t` as its node. -/
def hasConnectionFor (t : String) : Bool :=
  moduleDecls.any (fun d => d.isConnection && d.connectionNode == some t)

/-!
State-passing variants of the resolvers the frame claim names.  Each is the
same translation of the same Python body, with the post-state of the root
threaded explicitly: the bodies contain no attribute assignment, so each
branch returns the root it received.
-/

/-- State-passing `Sale.resolve_discount_value`: result plus root post-state. -/
def Sale.resolve_discount_valueSt (root : ChannelContext SaleNode) :
    Promise (Nat × String) (Option SaleChannelListing) (Option Rat) ×
      ChannelContext SaleNode :=
  match root.channel_slug with
  | none => (Promise.value none, root)
  | some s =>
    if s = "" then (Promise.value none, root)
    else
      (Promise.loadThen (root.node.id, s)
        (fun channel_listing =>
          match channel_listing with
          | some l => some l.discount_value
          | none => none), root)

/-- State-passing `Sale.resolve_currency`. -/
def Sale.resolve_currencySt (root : ChannelContext SaleNode) :
    Promise (Nat × String) (Option SaleChannelListing) (Option String) ×
      ChannelContext SaleNode :=
  match root.channel_slug with
  | none => (Promise.value none, root)
  | some s =>
    if s = "" then (Promise.value none, root)
    else
      (Promise.loadThen (root.node.id, s)
        (fun channel_listing =>
          match channel_listing with
          | some l => some l.currency
          | none => none), root)

/-- State-passing `Voucher.resolve_min_spent`. -/
def Voucher.resolve_min_spentSt (root : ChannelContext VoucherNode) :
    Promise (Nat × String) (Option VoucherChannelListing) (Option Money) ×
      ChannelContext VoucherNode :=
  match root.channel_slug with
  | none => (Promise.value none, root)
  | some s =>
    if s = "" then (Promise.value none, root)
    else
      (Promise.loadThen (root.node.id, s)
        (fun channel_listing =>
          match channel_listing with
          | some l => l.min_spent
          | none => none), root)

/-- State-passing `Voucher.resolve_countries`. -/
def Voucher.resolve_countriesSt (root : ChannelContext VoucherNode) :
    List CountryDisplay × ChannelContext VoucherNode :=
  (root.node.countries.map
    (fun country => { code := country.code, country := country.name }), root)

/-- State-passing `SaleChannelListing.resolve_channel`. -/
def SaleChannelListing.resolve_channelSt (root : SaleChannelListing)
    (_info : Info) : Promise Nat Channel Channel × SaleChannelListing :=
  (Promise.loadThen root.channel_id (fun c => c), root)

/-- State-passing `Sale.resolve_channel_listings`. -/
def Sale.resolve_channel_listingsSt (root : ChannelContext SaleNode)
    (info : Info) :
    Except PermError
        (Promise Nat (List SaleChannelListing) (List SaleChannelListing)) ×
      ChannelContext SaleNode :=
  (permission_required Permission.manage_discounts
    (fun root _info => Promise.loadThen root.node.id (fun ls => ls))
    root info, root)

/-- State-passing `Voucher.resolve_discount_value`. -/
def Voucher.resolve_discount_valueSt (root : ChannelContext VoucherNode) :
    Promise (Nat × String) (Option VoucherChannelListing) (Option Rat) ×
      ChannelContext VoucherNode :=
  match root.channel_slug with
  | none => (Promise.value none, root)
  | some s =>
    if s = "" then (Promise.value none, root)
    else
      (Promise.loadThen (root.node.id, s)
        (fun channel_listing =>
          match channel_listing with
          | some l => some l.discount_value
          | none => none), root)

/-- State-passing `Voucher.resolve_currency`. -/
def Voucher.resolve_currencySt (root : ChannelContext VoucherNode) :
    Promise (Nat × String) (Option VoucherChannelListing) (Option String) ×
      ChannelContext VoucherNode :=
  match root.channel_slug with
  | none => (Promise.value none, root)
  | some s =>
    if s = "" then (Promise.value none, root)
    else
      (Promise.loadThen (root.node.id, s)
        (fun channel_listing =>
          match channel_listing with
          | some l => some l.currency
          | none => none), root)

/-- State-passing `VoucherChannelListing.resolve_channel`. -/
def VoucherChannelListing.resolve_channelSt (root : VoucherChannelListing)
    (_info : Info) : Promise Nat Channel Channel × VoucherChannelListing :=
  (Promise.loadThen root.channel_id (fun c => c), root)

/-- State-passing `Voucher.resolve_channel_listings`. -/
def Voucher.resolve_channel_listingsSt (root : ChannelContext VoucherNode)
    (info : Info) :
    Except PermError
        (Promise Nat (List VoucherChannelListing) (List VoucherChannelListing)) ×
      ChannelContext VoucherNode :=
  (permission_required Permission.manage_discounts
    (fun root _info => Promise.loadThen root.node.id (fun ls => ls))
    root info, root)

/-- State-passing `OrderDiscount.resolve_reason`. -/
def OrderDiscount.resolve_reasonSt (root : OrderDiscountNode) (info : Info) :
    Except PermError (Option String) × OrderDiscountNode :=
  (permission_required Permission.manage_orders
    (fun root _info => root.reason)
    root info, root)

/-! Sample fixtures used by the witness instantiations. -/

/-- A concrete sale row. -/
def sampleSale : SaleNode :=
  { id := 7, name := "Summer sale", categories := [1, 2], collections := [3],
    products := [4, 5], variants := [6] }

/-- A concrete voucher row with two countries. -/
def sampleVoucher : VoucherNode :=
  { id := 11, name := "Welcome", code := "WELCOME10", categories := [1],
    collections := [2], products := [3], variants := [4],
    countries := [{ code := "US", name := "United States" },
                  { code := "PL", name := "Poland" }] }

/-- A concrete voucher row with no countries. -/
def emptyCountriesVoucher : VoucherNode :=
  { id := 12, name := "Plain", code := "PLAIN", categories := [],
    collections := [], products := [], variants := [], countries := [] }

/-- A concrete sale channel listing for channel 3. -/
def sampleSaleListing : SaleChannelListing :=
  { id := 21, channel_id := 3, discount_value := 5, currency := "USD" }

/-- A concrete voucher channel listing for channel 3. -/
def sampleVoucherListing : VoucherChannelListing :=
  { id := 31, channel_id := 3, discount_value := 10, currency := "PLN",
    min_spent := some { amount := 50, currency := "PLN" } }

/-- C1: for a Sale root whose channel context is absent (`channel_slug` is
`None` or the empty string), `Sale.resolve_discount_value` and
`Sale.resolve_currency` return `None`, and neither asks the
`SaleChannelListingBySaleIdAndChanneSlugLoader` for any key. -/
theorem sale_per_channel_null_without_channel
    (root : ChannelContext SaleNode)
    (h : root.channel_slug = none ∨ root.channel_slug = some "") :
    Sale.resolve_discount_value root = Promise.value none ∧
    Sale.resolve_currency root = Promise.value none ∧
    (Sale.resolve_discount_value root).loadKey = none ∧
    (Sale.resolve_currency root).loadKey = none := by
  rcases h with h | h <;>
    simp [Sale.resolve_discount_value, Sale.resolve_currency,
      Promise.loadKey, h]

/-- Witness for `sale_per_channel_null_without_channel` at a concrete root
with `channel_slug = none`. -/
theorem sale_per_channel_null_without_channel_witness :
    Sale.resolve_discount_value { node := sampleSale, channel_slug := none } =
      Promise.value none ∧
    Sale.resolve_currency { node := sampleSale, channel_slug := none } =
      Promise.value none ∧
    (Sale.resolve_discount_value
      { node := sampleSale, channel_slug := none }).loadKey = none ∧
    (Sale.resolve_currency
      { node := sampleSale, channel_slug := none }).loadKey = none :=
  sale_per_channel_null_without_channel
    { node := sampleSale, channel_slug := none } (Or.inl rfl)

/-- C2: for a Voucher root whose channel context is absent (`channel_slug`
is `None` or the empty string), `Voucher.resolve_discount_value`,
`Voucher.resolve_currency` and `Voucher.resolve_min_spent` all return
`None`. -/
theorem voucher_per_channel_null_without_channel
    (root : ChannelContext VoucherNode)
    (h : root.channel_slug = none ∨ root.channel_slug = some "") :
    Voucher.resolve_discount_value root = Promise.value none ∧
    Voucher.resolve_currency root = Promise.value none ∧
    Voucher.resolve_min_spent root = Promise.value none := by
  rcases h with h | h <;>
    simp [Voucher.resolve_discount_value, Voucher.resolve_currency,
      Voucher.resolve_min_spent, h]

/-- Witness for `voucher_per_channel_null_without_channel` at a concrete
root with `channel_slug` the empty string. -/
theorem voucher_per_channel_null_without_channel_witness :
    Voucher.resolve_discount_value
      { node := sampleVoucher, channel_slug := some "" } = Promise.value none ∧
    Voucher.resolve_currency
      { node := sampleVoucher, channel_slug := some "" } = Promise.value none ∧
    Voucher.resolve_min_spent
      { node := sampleVoucher, channel_slug := some "" } = Promise.value none :=
  voucher_per_channel_null_without_channel
    { node := sampleVoucher, channel_slug := some "" } (Or.inr rfl)

/-- C3: with a present (non-empty) channel slug, when the per-channel
loader yields no listing for `(node id, channel_slug)`, all five
per-channel resolvers resolve to `None` rather than failing. -/
theorem per_channel_none_when_listing_missing
    (sroot : ChannelContext SaleNode) (vroot : ChannelContext VoucherNode)
    (s t : String)
    (hs : sroot.channel_slug = some s) (hsne : ¬ s = "")
    (ht : vroot.channel_slug = some t) (htne : ¬ t = "")
    (saleLoader : Nat × String → Option SaleChannelListing)
    (voucherLoader : Nat × String → Option VoucherChannelListing)
    (hls : saleLoader (sroot.node.id, s) = none)
    (hlv : voucherLoader (vroot.node.id, t) = none) :
    (Sale.resolve_discount_value sroot).run saleLoader = none ∧
    (Sale.resolve_currency sroot).run saleLoader = none ∧
    (Voucher.resolve_discount_value vroot).run voucherLoader = none ∧
    (Voucher.resolve_currency vroot).run voucherLoader = none ∧
    (Voucher.resolve_min_spent vroot).run voucherLoader = none := by
  simp [Sale.resolve_discount_value, Sale.resolve_currency,
    Voucher.resolve_discount_value, Voucher.resolve_currency,
    Voucher.resolve_min_spent, Promise.run, hs, hsne, ht, htne, hls, hlv]

/-- Witness for `per_channel_none_when_listing_missing` with slug
`"web"` and loaders that hold no listings at all. -/
theorem per_channel_none_when_listing_missing_witness :
    (Sale.resolve_discount_value
        { node := sampleSale, channel_slug := some "web" }).run
      (fun _ => none) = none ∧
    (Sale.resolve_currency
        { node := sampleSale, channel_slug := some "web" }).run
      (fun _ => none) = none ∧
    (Voucher.resolve_discount_value
        { node := sampleVoucher, channel_slug := some "web" }).run
      (fun _ => none) = none ∧
    (Voucher.resolve_currency
        { node := sampleVoucher, channel_slug := some "web" }).run
      (fun _ => none) = none ∧
    (Voucher.resolve_min_spent
        { node := sampleVoucher, channel_slug := some "web" }).run
      (fun _ => none) = none :=
  per_channel_none_when_listing_missing
    { node := sampleSale, channel_slug := some "web" }
    { node := sampleVoucher, channel_slug := some "web" }
    "web" "web" rfl (by decide) rfl (by decide)
    (fun _ => none) (fun _ => none) rfl rfl

/-- C7: with a present (non-empty) channel slug, `Sale.resolve_discount_value`
and `Sale.resolve_currency` ask the per-channel dataloader exactly for the
key `(sale id, channel_slug)`, and when a listing exists there they yield
exactly that listing's `discount_value` and `currency`. -/
theorem sale_per_channel_values_from_loader
    (root : ChannelContext SaleNode) (s : String)
    (h1 : root.channel_slug = some s) (h2 : ¬ s = "")
    (loader : Nat × String → Option SaleChannelListing)
    (l : SaleChannelListing) (h3 : loader (root.node.id, s) = some l) :
    (Sale.resolve_discount_value root).loadKey = some (root.node.id, s) ∧
    (Sale.resolve_discount_value root).run loader = some l.discount_value ∧
    (Sale.resolve_currency root).loadKey = some (root.node.id, s) ∧
    (Sale.resolve_currency root).run loader = some l.currency := by
  simp [Sale.resolve_discount_value, Sale.resolve_currency,
    Promise.run, Promise.loadKey, h1, h2, h3]

/-- Witness for `sale_per_channel_values_from_loader` with slug `"web"`
and a loader holding `sampleSaleListing` at `(7, "web")`. -/
theorem sale_per_channel_values_from_loader_witness :
    (Sale.resolve_discount_value
        { node := sampleSale, channel_slug := some "web" }).loadKey =
      some (sampleSale.id, "web") ∧
    (Sale.resolve_discount_value
        { node := sampleSale, channel_slug := some "web" }).run
      (fun k => if k = (7, "web") then some sampleSaleListing else none) =
      some sampleSaleListing.discount_value ∧
    (Sale.resolve_currency
        { node := sampleSale, channel_slug := some "web" }).loadKey =
      some (sampleSale.id, "web") ∧
    (Sale.resolve_currency
        { node := sampleSale, channel_slug := some "web" }).run
      (fun k => if k = (7, "web") then some sampleSaleListing else none) =
      some sampleSaleListing.currency :=
  sale_per_channel_values_from_loader
    { node := sampleSale, channel_slug := some "web" } "web" rfl (by decide)
    (fun k => if k = (7, "web") then some sampleSaleListing else none)
    sampleSaleListing (by decide)

/-- C4: the eight decorated resolvers (`resolve_channel_listings`,
`resolve_collections`, `resolve_products`, `resolve_variants` on both
`Sale` and `Voucher`) run their body only for callers holding
`MANAGE_DISCOUNTS`: with the permission each yields its loader call or
queryset slice, and without it each is the decorator's permission-denied
outcome, the body never reached. -/
theorem gated_resolvers_require_manage_discounts
    (sroot : ChannelContext SaleNode) (vroot : ChannelContext VoucherNode)
    (kwargs : Kwargs) (yes no : Info)
    (hyes : Permission.manage_discounts ∈ yes.permissions)
    (hno : Permission.manage_discounts ∉ no.permissions) :
    (Sale.resolve_channel_listings sroot yes =
        Except.ok (Promise.loadThen sroot.node.id (fun ls => ls)) ∧
      Sale.resolve_collections sroot yes kwargs =
        Except.ok { qs := { qs := sroot.node.collections,
                            channel_slug := sroot.channel_slug },
                    kwargs := kwargs,
                    connection := "CollectionCountableConnection" } ∧
      Sale.resolve_products sroot yes kwargs =
        Except.ok { qs := { qs := sroot.node.products,
                            channel_slug := sroot.channel_slug },
                    kwargs := kwargs,
                    connection := "ProductCountableConnection" } ∧
      Sale.resolve_variants sroot yes kwargs =
        Except.ok { qs := { qs := sroot.node.variants,
                            channel_slug := sroot.channel_slug },
                    kwargs := kwargs,
                    connection := "ProductVariantCountableConnection" } ∧
      Voucher.resolve_channel_listings vroot yes =
        Except.ok (Promise.loadThen vroot.node.id (fun ls => ls)) ∧
      Voucher.resolve_collections vroot yes kwargs =
        Except.ok { qs := { qs := vroot.node.collections,
                            channel_slug := vroot.channel_slug },
                    kwargs := kwargs,
                    connection := "CollectionCountableConnection" } ∧
      Voucher.resolve_products vroot yes kwargs =
        Except.ok { qs := { qs := vroot.node.products,
                            channel_slug := vroot.channel_slug },
                    kwargs := kwargs,
                    connection := "ProductCountableConnection" } ∧
      Voucher.resolve_variants vroot yes kwargs =
        Except.ok { qs := { qs := vroot.node.variants,
                            channel_slug := vroot.channel_slug },
                    kwargs := kwargs,
                    connection := "ProductVariantCountableConnection" }) ∧
    (Sale.resolve_channel_listings sroot no =
        Except.error PermError.permissionDenied ∧
      Sale.resolve_collections sroot no kwargs =
        Except.error PermError.permissionDenied ∧
      Sale.resolve_products sroot no kwargs =
        Except.error PermError.permissionDenied ∧
      Sale.resolve_variants sroot no kwargs =
        Except.error PermError.permissionDenied ∧
      Voucher.resolve_channel_listings vroot no =
        Except.error PermError.permissionDenied ∧
      Voucher.resolve_collections vroot no kwargs =
        Except.error PermError.permissionDenied ∧
      Voucher.resolve_products vroot no kwargs =
        Except.error PermError.permissionDenied ∧
      Voucher.resolve_variants vroot no kwargs =
        Except.error PermError.permissionDenied) := by
  simp [Sale.resolve_channel_listings, Sale.resolve_collections,
    Sale.resolve_products, Sale.resolve_variants,
    Voucher.resolve_channel_listings, Voucher.resolve_collections,
    Voucher.resolve_products, Voucher.resolve_variants,
    permission_required, create_connection_slice, hyes, hno]

/-- Witness for `gated_resolvers_require_manage_discounts` with a caller
holding only `MANAGE_DISCOUNTS` against a caller with no permissions. -/
theorem gated_resolvers_require_manage_discounts_witness :
    (Sale.resolve_channel_listings { node := sampleSale, channel_slug := some "web" }
        { permissions := [Permission.manage_discounts] } =
        Except.ok (Promise.loadThen sampleSale.id (fun ls => ls)) ∧
      Sale.resolve_collections { node := sampleSale, channel_slug := some "web" }
        { permissions := [Permission.manage_discounts] } [] =
        Except.ok { qs := { qs := sampleSale.collections,
                            channel_slug := some "web" },
                    kwargs := [],
                    connection := "CollectionCountableConnection" } ∧
      Sale.resolve_products { node := sampleSale, channel_slug := some "web" }
        { permissions := [Permission.manage_discounts] } [] =
        Except.ok { qs := { qs := sampleSale.products,
                            channel_slug := some "web" },
                    kwargs := [],
                    connection := "ProductCountableConnection" } ∧
      Sale.resolve_variants { node := sampleSale, channel_slug := some "web" }
        { permissions := [Permission.manage_discounts] } [] =
        Except.ok { qs := { qs := sampleSale.variants,
                            channel_slug := some "web" },
                    kwargs := [],
                    connection := "ProductVariantCountableConnection" } ∧
      Voucher.resolve_channel_listings { node := sampleVoucher, channel_slug := some "web" }
        { permissions := [Permission.manage_discounts] } =
        Except.ok (Promise.loadThen sampleVoucher.id (fun ls => ls)) ∧
      Voucher.resolve_collections { node := sampleVoucher, channel_slug := some "web" }
        { permissions := [Permission.manage_discounts] } [] =
        Except.ok { qs := { qs := sampleVoucher.collections,
                            channel_slug := some "web" },
                    kwargs := [],
                    connection := "CollectionCountableConnection" } ∧
      Voucher.resolve_products { node := sampleVoucher, channel_slug := some "web" }
        { permissions := [Permission.manage_discounts] } [] =
        Except.ok { qs := { qs := sampleVoucher.products,
                            channel_slug := some "web" },
                    kwargs := [],
                    connection := "ProductCountableConnection" } ∧
      Voucher.resolve_variants { node := sampleVoucher, channel_slug := some "web" }
        { permissions := [Permission.manage_discounts] } [] =
        Except.ok { qs := { qs := sampleVoucher.variants,
                            channel_slug := some "web" },
                    kwargs := [],
                    connection := "ProductVariantCountableConnection" }) ∧
    (Sale.resolve_channel_listings { node := sampleSale, channel_slug := some "web" }
        { permissions := [] } = Except.error PermError.permissionDenied ∧
      Sale.resolve_collections { node := sampleSale, channel_slug := some "web" }
        { permissions := [] } [] = Except.error PermError.permissionDenied ∧
      Sale.resolve_products { node := sampleSale, channel_slug := some "web" }
        { permissions := [] } [] = Except.error PermError.permissionDenied ∧
      Sale.resolve_variants { node := sampleSale, channel_slug := some "web" }
        { permissions := [] } [] = Except.error PermError.permissionDenied ∧
      Voucher.resolve_channel_listings { node := sampleVoucher, channel_slug := some "web" }
        { permissions := [] } = Except.error PermError.permissionDenied ∧
      Voucher.resolve_collections { node := sampleVoucher, channel_slug := some "web" }
        { permissions := [] } [] = Except.error PermError.permissionDenied ∧
      Voucher.resolve_products { node := sampleVoucher, channel_slug := some "web" }
        { permissions := [] } [] = Except.error PermError.permissionDenied ∧
      Voucher.resolve_variants { node := sampleVoucher, channel_slug := some "web" }
        { permissions := [] } [] = Except.error PermError.permissionDenied) :=
  gated_resolvers_require_manage_discounts
    { node := sampleSale, channel_slug := some "web" }
    { node := sampleVoucher, channel_slug := some "web" }
    [] { permissions := [Permission.manage_discounts] } { permissions := [] }
    (by decide) (by decide)

/-- C5: `OrderDiscount.resolve_reason` is gated by `MANAGE_ORDERS`: a
caller holding it gets exactly `root.reason`, and a caller lacking it gets
the decorator's permission-denied outcome instead of a value. -/
theorem order_discount_reason_gated
    (root : OrderDiscountNode) (yes no : Info)
    (hyes : Permission.manage_orders ∈ yes.permissions)
    (hno : Permission.manage_orders ∉ no.permissions) :
    OrderDiscount.resolve_reason root yes = Except.ok root.reason ∧
    OrderDiscount.resolve_reason root no =
      Except.error PermError.permissionDenied := by
  simp [OrderDiscount.resolve_reason, permission_required, hyes, hno]

/-- Witness for `order_discount_reason_gated` at a concrete discount row. -/
theorem order_discount_reason_gated_witness :
    OrderDiscount.resolve_reason { id := 41, reason := some "loyalty" }
      { permissions := [Permission.manage_orders] } =
      Except.ok (some "loyalty") ∧
    OrderDiscount.resolve_reason { id := 41, reason := some "loyalty" }
      { permissions := [Permission.manage_discounts] } =
      Except.error PermError.permissionDenied :=
  order_discount_reason_gated { id := 41, reason := some "loyalty" }
    { permissions := [Permission.manage_orders] }
    { permissions := [Permission.manage_discounts] }
    (by decide) (by decide)

/-- C6 counterexample: the claim that each of the five listed object types
has a corresponding connection type in this module fails at
`"SaleChannelListing"`: it is among the listed types, yet no connection
declared in the module has it as node, so the universal claim over
`objectTypeNames` is false. -/
theorem five_connection_types_counterexample :
    "SaleChannelListing" ∈ objectTypeNames ∧
    hasConnectionFor "SaleChannelListing" = false ∧
    objectTypeNames.all hasConnectionFor = false := by
  decide

/-- C6 (amended): the module declares all five object types `Sale`,
`Voucher`, `SaleChannelListing`, `VoucherChannelListing` and
`OrderDiscount`, and connection types exactly for `Sale` and `Voucher`
(`SaleCountableConnection`, `VoucherCountableConnection`); the two
channel-listing types and `OrderDiscount` have no connection type here. -/
theorem module_object_types_and_connections :
    objectTypeNames.all declaresObjectType = true ∧
    hasConnectionFor "Sale" = true ∧
    hasConnectionFor "Voucher" = true ∧
    hasConnectionFor "SaleChannelListing" = false ∧
    hasConnectionFor "VoucherChannelListing" = false ∧
    hasConnectionFor "OrderDiscount" = false := by
  decide

/-- C8: `resolve_categories` on Sale and Voucher is not permission-gated:
any two callers, whatever their permission sets (including none at all),
get the same connection slice of `root.node.categories`, while the
collections, products and variants resolvers deny the caller without
`MANAGE_DISCOUNTS`. -/
theorem categories_not_permission_gated
    (sroot : ChannelContext SaleNode) (vroot : ChannelContext VoucherNode)
    (info1 info2 : Info) (kwargs : Kwargs)
    (hno : Permission.manage_discounts ∉ info2.permissions) :
    Sale.resolve_categories sroot info1 kwargs =
      Sale.resolve_categories sroot info2 kwargs ∧
    Voucher.resolve_categories vroot info1 kwargs =
      Voucher.resolve_categories vroot info2 kwargs ∧
    Sale.resolve_categories sroot info2 kwargs =
      { qs := sroot.node.categories, kwargs := kwargs,
        connection := "CategoryCountableConnection" } ∧
    Voucher.resolve_categories vroot info2 kwargs =
      { qs := vroot.node.categories, kwargs := kwargs,
        connection := "CategoryCountableConnection" } ∧
    Sale.resolve_collections sroot info2 kwargs =
      Except.error PermError.permissionDenied ∧
    Sale.resolve_products sroot info2 kwargs =
      Except.error PermError.permissionDenied ∧
    Sale.resolve_variants sroot info2 kwargs =
      Except.error PermError.permissionDenied ∧
    Voucher.resolve_collections vroot info2 kwargs =
      Except.error PermError.permissionDenied ∧
    Voucher.resolve_products vroot info2 kwargs =
      Except.error PermError.permissionDenied ∧
    Voucher.resolve_variants vroot info2 kwargs =
      Except.error PermError.permissionDenied := by
  simp [Sale.resolve_categories, Voucher.resolve_categories,
    Sale.resolve_collections, Sale.resolve_products, Sale.resolve_variants,
    Voucher.resolve_collections, Voucher.resolve_products,
    Voucher.resolve_variants, create_connection_slice,
    permission_required, hno]

/-- Witness for `categories_not_permission_gated`: a fully-privileged
caller against a caller with no permissions at all. -/
theorem categories_not_permission_gated_witness :
    Sale.resolve_categories { node := sampleSale, channel_slug := some "web" }
        { permissions := [Permission.manage_discounts, Permission.manage_orders] } [] =
      Sale.resolve_categories { node := sampleSale, channel_slug := some "web" }
        { permissions := [] } [] ∧
    Voucher.resolve_categories { node := sampleVoucher, channel_slug := some "web" }
        { permissions := [Permission.manage_discounts, Permission.manage_orders] } [] =
      Voucher.resolve_categories { node := sampleVoucher, channel_slug := some "web" }
        { permissions := [] } [] ∧
    Sale.resolve_categories { node := sampleSale, channel_slug := some "web" }
        { permissions := [] } [] =
      { qs := sampleSale.categories, kwargs := [],
        connection := "CategoryCountableConnection" } ∧
    Voucher.resolve_categories { node := sampleVoucher, channel_slug := some "web" }
        { permissions := [] } [] =
      { qs := sampleVoucher.categories, kwargs := [],
        connection := "CategoryCountableConnection" } ∧
    Sale.resolve_collections { node := sampleSale, channel_slug := some "web" }
        { permissions := [] } [] = Except.error PermError.permissionDenied ∧
    Sale.resolve_products { node := sampleSale, channel_slug := some "web" }
        { permissions := [] } [] = Except.error PermError.permissionDenied ∧
    Sale.resolve_variants { node := sampleSale, channel_slug := some "web" }
        { permissions := [] } [] = Except.error PermError.permissionDenied ∧
    Voucher.resolve_collections { node := sampleVoucher, channel_slug := some "web" }
        { permissions := [] } [] = Except.error PermError.permissionDenied ∧
    Voucher.resolve_products { node := sampleVoucher, channel_slug := some "web" }
        { permissions := [] } [] = Except.error PermError.permissionDenied ∧
    Voucher.resolve_variants { node := sampleVoucher, channel_slug := some "web" }
        { permissions := [] } [] = Except.error PermError.permissionDenied :=
  categories_not_permission_gated
    { node := sampleSale, channel_slug := some "web" }
    { node := sampleVoucher, channel_slug := some "web" }
    { permissions := [Permission.manage_discounts, Permission.manage_orders] }
    { permissions := [] } [] (by decide)

/-- C9: `Voucher.resolve_countries` maps `root.node.countries` in order to
`CountryDisplay` values: the result has the same length, its `i`-th entry
has `code` the `i`-th country's code and `country` its name, and an empty
country list yields the empty list (never `None`). -/
theorem voucher_resolve_countries_pointwise
    (root : ChannelContext VoucherNode) :
    (Voucher.resolve_countries root).length = root.node.countries.length ∧
    (∀ (i : Nat) (c : Country), root.node.countries[i]? = some c →
      (Voucher.resolve_countries root)[i]? =
        some { code := c.code, country := c.name }) ∧
    (root.node.countries = [] → Voucher.resolve_countries root = []) := by
  refine ⟨by simp [Voucher.resolve_countries], ?_, ?_⟩
  · intro i c h
    simp [Voucher.resolve_countries, List.getElem?_map, h]
  · intro he
    simp [Voucher.resolve_countries, he]

/-- Witness for `voucher_resolve_countries_pointwise`: the second country of
`sampleVoucher` is displayed in place, and a voucher without countries
resolves to the empty list. -/
theorem voucher_resolve_countries_pointwise_witness :
    (Voucher.resolve_countries
        { node := sampleVoucher, channel_slug := none }).length =
      sampleVoucher.countries.length ∧
    (Voucher.resolve_countries
        { node := sampleVoucher, channel_slug := none })[1]? =
      some { code := "PL", country := "Poland" } ∧
    Voucher.resolve_countries
      { node := emptyCountriesVoucher, channel_slug := none } = [] :=
  ⟨(voucher_resolve_countries_pointwise
      { node := sampleVoucher, channel_slug := none }).1,
    (voucher_resolve_countries_pointwise
      { node := sampleVoucher, channel_slug := none }).2.1 1
      { code := "PL", name := "Poland" } (by decide),
    (voucher_resolve_countries_pointwise
      { node := emptyCountriesVoucher, channel_slug := none }).2.2 (by decide)⟩

/-- C10: the embedded resolvers are read-only with respect to their root:
the state-passing translations of the `discount_value`, `currency`,
`min_spent`, `countries`, `channel`, `channel_listings` and `reason`
resolvers all return the root they received as their post-state. -/
theorem resolvers_read_only :
    (∀ root : ChannelContext SaleNode,
      (Sale.resolve_discount_valueSt root).2 = root) ∧
    (∀ root : ChannelContext SaleNode,
      (Sale.resolve_currencySt root).2 = root) ∧
    (∀ root : ChannelContext VoucherNode,
      (Voucher.resolve_discount_valueSt root).2 = root) ∧
    (∀ root : ChannelContext VoucherNode,
      (Voucher.resolve_currencySt root).2 = root) ∧
    (∀ root : ChannelContext VoucherNode,
      (Voucher.resolve_min_spentSt root).2 = root) ∧
    (∀ root : ChannelContext VoucherNode,
      (Voucher.resolve_countriesSt root).2 = root) ∧
    (∀ (root : SaleChannelListing) (info : Info),
      (SaleChannelListing.resolve_channelSt root info).2 = root) ∧
    (∀ (root : VoucherChannelListing) (info : Info),
      (VoucherChannelListing.resolve_channelSt root info).2 = root) ∧
    (∀ (root : ChannelContext SaleNode) (info : Info),
      (Sale.resolve_channel_listingsSt root info).2 = root) ∧
    (∀ (root : ChannelContext VoucherNode) (info : Info),
      (Voucher.resolve_channel_listingsSt root info).2 = root) ∧
    (∀ (root : OrderDiscountNode) (info : Info),
      (OrderDiscount.resolve_reasonSt root info).2 = root) := by
  refine ⟨?_, ?_, ?_, ?_, ?_, fun root => rfl, fun root info => rfl,
    fun root info => rfl, fun root info => rfl, fun root info => rfl,
    fun root info => rfl⟩ <;>
    intro root <;>
    rcases hslug : root.channel_slug with _ | s <;>
    simp [Sale.resolve_discount_valueSt, Sale.resolve_currencySt,
      Voucher.resolve_discount_valueSt, Voucher.resolve_currencySt,
      Voucher.resolve_min_spentSt, hslug] <;>
    split <;> rfl
